import Mathlib

/-!
Verification of the transaction-analysis core of the ai-blockchain-analyzer
service, shallowly embedded from the Rust source:

  * `src/services/blockchain.rs` — `fetch_transaction` (the Transaction
    Fetcher, currently a mock that supports only the network
    "ethereum-mainnet");
  * `src/services/ai.rs` — `analyze_transaction` (the Transaction Analyzer,
    currently a rule-based placeholder matching the substring "Uniswap" in
    log emitting addresses);
  * `src/routes.rs` — `analyze_tx` (the per-request pipeline composing the
    two stages);
  * `src/models.rs` — the response record `AnalyzeTxResponse`.

JSON values (`serde_json::Value`) are embedded as the inductive `Json`;
`serde_json`'s non-panicking `Index` impl (which yields `Null` on a missing
key or a type mismatch) is embedded as `Json.idx`, and `as_array` / `as_str`
as `Json.asArray` / `Json.asStr`.  The `f32` literal `0.2` is embedded as the
rational `1/5`; every claim about the score only needs its order against `0`
and `1`, for which the rounding of `0.2` to binary is immaterial.
-/

/-- Embedding of `serde_json::Value`.  Numbers are embedded as rationals
(the mock only ever uses the integer `21000`). -/
inductive Json where
  | null : Json
  | bool (b : Bool) : Json
  | num (q : ℚ) : Json
  | str (s : String) : Json
  | arr (elems : List Json) : Json
  | obj (fields : List (String × Json)) : Json

/-- Embedding of `serde_json::Value`'s `Index<&str>` impl: on an object,
look the key up (`Null` when absent); on any other value, `Null`.
`serde_json` never panics here: `index_into(self).unwrap_or(&NULL)`. -/
def Json.idx (v : Json) (key : String) : Json :=
  match v with
  | .obj fields =>
    match fields.find? (fun f => f.1 = key) with
    | some f => f.2
    | none => .null
  | _ => .null

/-- Embedding of `serde_json::Value::as_array`. -/
def Json.asArray (v : Json) : Option (List Json) :=
  match v with
  | .arr elems => some elems
  | _ => none

/-- Embedding of `serde_json::Value::as_str`. -/
def Json.asStr (v : Json) : Option String :=
  match v with
  | .str s => some s
  | _ => none

/-- Embedding of Rust's `str::contains(pat)`: `pat` occurs as a contiguous
substring of `s`.  (All strings the analyzer matches are ASCII, so the
character-level match coincides with Rust's byte-level match.) -/
def strContains (s pat : String) : Bool :=
  s.data.tails.any (fun t => pat.data.isPrefixOf t)

/-- Embedding of `models.rs`'s `AnalyzeTxResponse`. -/
structure AnalyzeTxResponse where
  tx_hash : String
  network : String
  tx_type : String
  protocol : Option String
  risk_score : ℚ
  risk_reasons : List String
  natural_language_explanation : String
deriving DecidableEq

/-- Embedding of `ai.rs`'s `AiError`. -/
inductive AiError where
  | llmCallFailed (msg : String) : AiError
deriving DecidableEq

/-- Embedding of `blockchain.rs`'s `BlockchainError`. -/
inductive BlockchainError where
  | unsupportedNetwork (network : String) : BlockchainError
  | rpcError (msg : String) : BlockchainError
deriving DecidableEq

/-- The `Display` impl `thiserror` derives for `BlockchainError`. -/
def BlockchainError.message : BlockchainError → String
  | .unsupportedNetwork n => "Unsupported network: " ++ n
  | .rpcError m => "RPC error: " ++ m

/-- The `Display` impl `thiserror` derives for `AiError`. -/
def AiError.message : AiError → String
  | .llmCallFailed m => "LLM call failed: " ++ m

/-- The classification condition of `analyze_transaction` (`ai.rs` lines
21–27): some entry of `tx_details["logs"]` (an empty list when the key is
absent or not an array) has an `"address"` field whose string value
(`""` when absent or not a string) contains the substring `"Uniswap"`. -/
def hasDexSignature (tx_details : Json) : Bool :=
  (((tx_details.idx "logs").asArray).getD []).any
    (fun log => strContains (((log.idx "address").asStr).getD "") "Uniswap")

/-- Embedding of `ai.rs`'s `analyze_transaction`.  The source function is
`async` but performs no awaits; per request it is a pure function of its
three arguments, so it embeds as a plain function into `Except`. -/
def analyze_transaction (network tx_hash : String) (tx_details : Json) :
    Except AiError AnalyzeTxResponse :=
  let tx_type : String := if hasDexSignature tx_details then "DEX_SWAP" else "TRANSFER"
  let protocol : Option String :=
    if tx_type = "DEX_SWAP" then some "Uniswap (detected heuristically)" else none
  let risk_score : ℚ := 1/5
  let risk_reasons : List String := ["Heuristic analysis only; no AI risk model yet"]
  let natural_language_explanation : String :=
    "This is a placeholder analysis for transaction " ++ tx_hash ++ " on " ++ network ++
    ".\nIn the next version, an AI model will interpret on-chain data, " ++
    "classify the transaction type, and assess risk using LLM reasoning."
  .ok { tx_hash := tx_hash
        network := network
        tx_type := tx_type
        protocol := protocol
        risk_score := risk_score
        risk_reasons := risk_reasons
        natural_language_explanation := natural_language_explanation }

/-- The mock transaction JSON built by `fetch_transaction` (the `json!`
literal in `blockchain.rs`, with `"hash"` bound to the supplied hash). -/
def mock (tx_hash : String) : Json :=
  .obj [
      ("hash", .str tx_hash),
      ("from", .str "0x1234...abcd"),
      ("to", .str "0xabcd...1234"),
      ("value", .str "1.5 ETH"),
      ("gas_used", .num 21000),
      ("status", .str "success"),
      ("logs", .arr [
        .obj [
          ("address", .str "0xUniswapV3Pool..."),
          ("topics", .arr [.str "Swap", .str "..."]),
          ("data", .str "...")
        ]
      ])
    ]

/-- Embedding of `blockchain.rs`'s `fetch_transaction`: any network other
than `"ethereum-mainnet"` is rejected with `UnsupportedNetwork`; otherwise
the mock transaction JSON is returned with `"hash"` set to `tx_hash`. -/
def fetch_transaction (network tx_hash : String) : Except BlockchainError Json :=
  if network ≠ "ethereum-mainnet" then
    .error (.unsupportedNetwork network)
  else
    .ok (mock tx_hash)

/-- Embedding of `routes.rs`'s `analyze_tx`, instrumented with a flag
recording whether the Analyzer stage was invoked.  A fetch error maps to a
400 response and returns before the Analyzer runs; an analyzer error maps
to a 500 response. -/
def analyze_tx_instr (network tx_hash : String) :
    Except (Nat × String) AnalyzeTxResponse × Bool :=
  match fetch_transaction network tx_hash with
  | .error e => (.error (400, "Failed to fetch tx details: " ++ e.message), false)
  | .ok tx_details =>
    match analyze_transaction network tx_hash tx_details with
    | .error e => (.error (500, "AI analysis failed: " ++ e.message), true)
    | .ok analysis => (.ok analysis, true)

/-- Embedding of `routes.rs`'s `analyze_tx` as the caller observes it. -/
def analyze_tx (network tx_hash : String) : Except (Nat × String) AnalyzeTxResponse :=
  (analyze_tx_instr network tx_hash).1

/-! ### Helper lemmas and sample inputs -/

/-- Closed form of `analyze_transaction`: it always succeeds, and every
field of the response is determined by the three inputs, with the
classification driven by `hasDexSignature`. -/
theorem analyze_transaction_eq (network tx_hash : String) (tx_details : Json) :
    analyze_transaction network tx_hash tx_details =
      .ok { tx_hash := tx_hash
            network := network
            tx_type := if hasDexSignature tx_details then "DEX_SWAP" else "TRANSFER"
            protocol := if hasDexSignature tx_details then
                some "Uniswap (detected heuristically)" else none
            risk_score := 1/5
            risk_reasons := ["Heuristic analysis only; no AI risk model yet"]
            natural_language_explanation :=
              "This is a placeholder analysis for transaction " ++ tx_hash ++ " on " ++
                network ++
                ".\nIn the next version, an AI model will interpret on-chain data, " ++
                "classify the transaction type, and assess risk using LLM reasoning." } := by
  unfold analyze_transaction
  cases h : hasDexSignature tx_details <;> simp [h]

/-- `List.any` is invariant under permutation of the list. -/
theorem perm_any_eq {α : Type} (p : α → Bool) {l₁ l₂ : List α} (h : l₁.Perm l₂) :
    l₁.any p = l₂.any p := by
  apply Bool.eq_iff_iff.mpr
  simp only [List.any_eq_true]
  exact ⟨fun ⟨x, hx, hpx⟩ => ⟨x, h.mem_iff.mp hx, hpx⟩,
         fun ⟨x, hx, hpx⟩ => ⟨x, h.mem_iff.mpr hx, hpx⟩⟩

/-- A transaction-details value with one log entry whose address contains
the case-exact signature `"Uniswap"`. -/
def sampleDexDetails : Json :=
  .obj [("logs", .arr [.obj [("address", .str "0xUniswapV3Pool...")]])]

/-- A transaction-details value whose single log address contains the
signature only in lowercase (`"uniswap"`, not `"Uniswap"`). -/
def lowercaseLogDetails : Json :=
  .obj [("logs", .arr [.obj [("address", .str "0xuniswapv3pool...")]])]

/-- The response `analyze_transaction` produces for
`("ethereum-mainnet", "0xabc123")` when no log matches. -/
def sampleTransferResponse : AnalyzeTxResponse :=
  { tx_hash := "0xabc123"
    network := "ethereum-mainnet"
    tx_type := "TRANSFER"
    protocol := none
    risk_score := 1/5
    risk_reasons := ["Heuristic analysis only; no AI risk model yet"]
    natural_language_explanation :=
      "This is a placeholder analysis for transaction " ++ "0xabc123" ++ " on " ++
        "ethereum-mainnet" ++
        ".\nIn the next version, an AI model will interpret on-chain data, " ++
        "classify the transaction type, and assess risk using LLM reasoning." }

/-- The response `analyze_transaction` produces for
`("ethereum-mainnet", "0xabc123")` when some log matches. -/
def sampleDexResponse : AnalyzeTxResponse :=
  { sampleTransferResponse with
    tx_type := "DEX_SWAP"
    protocol := some "Uniswap (detected heuristically)" }

/-! ### Claims -/

/-- C1: for every input triple, `analyze_transaction` returns an
`AnalyzeTxResponse` whose `risk_score` lies in `[0, 1]` and whose
`risk_reasons` list is non-empty; it never returns a result violating
either bound. -/
theorem claim_C1 (network tx_hash : String) (tx_details : Json)
    (r : AnalyzeTxResponse)
    (h : analyze_transaction network tx_hash tx_details = .ok r) :
    0 ≤ r.risk_score ∧ r.risk_score ≤ 1 ∧ r.risk_reasons ≠ [] := by
  rw [analyze_transaction_eq] at h
  injection h with h2
  rw [← h2]
  refine ⟨by norm_num, by norm_num, by simp⟩

/-- Witness for C1 at the concrete input
`("ethereum-mainnet", "0xabc123", null)`. -/
theorem claim_C1_witness :
    0 ≤ sampleTransferResponse.risk_score ∧ sampleTransferResponse.risk_score ≤ 1 ∧
      sampleTransferResponse.risk_reasons ≠ [] :=
  claim_C1 "ethereum-mainnet" "0xabc123" .null sampleTransferResponse rfl

/-- C2: if some entry of the log sequence has an emitting-address field
containing the known decentralized-exchange signature substring
(`"Uniswap"`), `analyze_transaction` returns `tx_type = "DEX_SWAP"` and
`protocol = some "Uniswap (detected heuristically)"`; if no log entry
matches (including an empty or absent log sequence), it returns
`tx_type = "TRANSFER"` and `protocol = none`. -/
theorem claim_C2 (network tx_hash : String) (tx_details : Json)
    (r : AnalyzeTxResponse)
    (h : analyze_transaction network tx_hash tx_details = .ok r) :
    (hasDexSignature tx_details = true →
      r.tx_type = "DEX_SWAP" ∧ r.protocol = some "Uniswap (detected heuristically)") ∧
    (hasDexSignature tx_details = false →
      r.tx_type = "TRANSFER" ∧ r.protocol = none) := by
  rw [analyze_transaction_eq] at h
  injection h with h2
  rw [← h2]
  constructor <;> intro hb <;> simp [hb]

/-- Witness for C2 at a matching and a non-matching concrete input. -/
theorem claim_C2_witness :
    (sampleDexResponse.tx_type = "DEX_SWAP" ∧
      sampleDexResponse.protocol = some "Uniswap (detected heuristically)") ∧
    (sampleTransferResponse.tx_type = "TRANSFER" ∧
      sampleTransferResponse.protocol = none) :=
  ⟨(claim_C2 "ethereum-mainnet" "0xabc123" sampleDexDetails sampleDexResponse rfl).1
      (by decide),
   (claim_C2 "ethereum-mainnet" "0xabc123" .null sampleTransferResponse rfl).2
      (by decide)⟩

/-- C3: for every network string other than the supported
`"ethereum-mainnet"`, `fetch_transaction` fails with `UnsupportedNetwork`
carrying that network name and the Analyzer stage of the route is never
invoked; for the supported network, `fetch_transaction` does not fail. -/
theorem claim_C3 (network tx_hash : String) :
    (network ≠ "ethereum-mainnet" →
      fetch_transaction network tx_hash = .error (.unsupportedNetwork network) ∧
      (analyze_tx_instr network tx_hash).2 = false) ∧
    (network = "ethereum-mainnet" →
      (fetch_transaction network tx_hash).isOk = true) := by
  constructor
  · intro hne
    have hf : fetch_transaction network tx_hash = .error (.unsupportedNetwork network) := by
      unfold fetch_transaction
      simp [hne]
    refine ⟨hf, ?_⟩
    unfold analyze_tx_instr
    rw [hf]
  · intro heq
    subst heq
    rfl

/-- Witness for C3 at `"unsupported-chain"` and at the supported network. -/
theorem claim_C3_witness :
    (fetch_transaction "unsupported-chain" "0xabc123" =
        .error (.unsupportedNetwork "unsupported-chain") ∧
      (analyze_tx_instr "unsupported-chain" "0xabc123").2 = false) ∧
    (fetch_transaction "ethereum-mainnet" "0xabc123").isOk = true :=
  ⟨(claim_C3 "unsupported-chain" "0xabc123").1 (by decide),
   (claim_C3 "ethereum-mainnet" "0xabc123").2 rfl⟩

/-- C4: `analyze_transaction` is deterministic — two calls with identical
inputs yield identical responses.  The embedded function is pure (the
source reads no clock and draws no randomness), so equal inputs give equal
outputs. -/
theorem claim_C4 (network tx_hash : String) (tx_details : Json)
    (network' tx_hash' : String) (tx_details' : Json)
    (hn : network = network') (hh : tx_hash = tx_hash') (hd : tx_details = tx_details') :
    analyze_transaction network tx_hash tx_details =
      analyze_transaction network' tx_hash' tx_details' := by
  subst hn
  subst hh
  subst hd
  rfl

/-- Witness for C4 at a concrete repeated input. -/
theorem claim_C4_witness :
    analyze_transaction "ethereum-mainnet" "0xabc123" sampleDexDetails =
      analyze_transaction "ethereum-mainnet" "0xabc123" sampleDexDetails :=
  claim_C4 "ethereum-mainnet" "0xabc123" sampleDexDetails
    "ethereum-mainnet" "0xabc123" sampleDexDetails rfl rfl rfl

/-- C5: for the supported network and every `tx_hash`, `fetch_transaction`
returns a record whose `"hash"` field equals the supplied `tx_hash`. -/
theorem claim_C5 (network tx_hash : String)
    (hsupp : network = "ethereum-mainnet") (v : Json)
    (h : fetch_transaction network tx_hash = .ok v) :
    v.idx "hash" = .str tx_hash := by
  subst hsupp
  unfold fetch_transaction at h
  simp only [ne_eq, not_true_eq_false, if_false, ite_false, reduceIte] at h
  injection h with h2
  rw [← h2]
  rfl

/-- Witness for C5 at the concrete pair `("ethereum-mainnet", "0xabc123")`. -/
theorem claim_C5_witness : (mock "0xabc123").idx "hash" = .str "0xabc123" :=
  claim_C5 "ethereum-mainnet" "0xabc123" rfl (mock "0xabc123") rfl

/-- C6 counterexample: the claim asserts that `fetch_transaction` rejects
an empty `tx_hash`; in fact it performs no check on `tx_hash` at all and
succeeds on the empty string for the supported network. -/
theorem claim_C6_counterexample :
    fetch_transaction "ethereum-mainnet" "" = .ok (mock "") := rfl

/-- C6 (amended): `fetch_transaction` performs no format validation on
`tx_hash` whatsoever — for the supported network it succeeds for every
`tx_hash`, the empty string included, and passes the value through
unchanged into the returned record's `"hash"` field. -/
theorem claim_C6_amended (tx_hash : String) :
    fetch_transaction "ethereum-mainnet" tx_hash = .ok (mock tx_hash) ∧
      (mock tx_hash).idx "hash" = .str tx_hash :=
  ⟨rfl, rfl⟩

/-- C7: the protocol-signature substring match is case-sensitive (a log
sequence none of whose addresses contains the case-exact `"Uniswap"` —
even one containing `"uniswap"` in another letter case — classifies as
`TRANSFER` with no protocol) and the result is invariant under any
permutation of the log sequence. -/
theorem claim_C7 :
    (∀ (network tx_hash : String) (tx_details : Json) (r : AnalyzeTxResponse),
      analyze_transaction network tx_hash tx_details = .ok r →
      (∀ log ∈ ((tx_details.idx "logs").asArray).getD [],
        strContains (((log.idx "address").asStr).getD "") "Uniswap" = false) →
      r.tx_type = "TRANSFER" ∧ r.protocol = none) ∧
    (∀ (network tx_hash : String) (d₁ d₂ : Json),
      (((d₁.idx "logs").asArray).getD []).Perm (((d₂.idx "logs").asArray).getD []) →
      analyze_transaction network tx_hash d₁ = analyze_transaction network tx_hash d₂) := by
  constructor
  · intro network tx_hash tx_details r h hnone
    have hsig : hasDexSignature tx_details = false := by
      unfold hasDexSignature
      rw [List.any_eq_false]
      intro log hlog
      rw [hnone log hlog]
      simp
    rw [analyze_transaction_eq] at h
    injection h with h2
    rw [← h2]
    simp [hsig]
  · intro network tx_hash d₁ d₂ hperm
    rw [analyze_transaction_eq, analyze_transaction_eq]
    have hsig : hasDexSignature d₁ = hasDexSignature d₂ := by
      unfold hasDexSignature
      exact perm_any_eq _ hperm
    rw [hsig]

/-- A log entry whose address carries the case-exact signature. -/
def upperLog : Json := .obj [("address", .str "0xUniswapV3Pool...")]

/-- A log entry whose address carries the signature only in lowercase. -/
def lowerLog : Json := .obj [("address", .str "0xuniswapv3pool...")]

/-- Witness for C7: the lowercase-only input classifies as `TRANSFER`
(case-sensitivity), and swapping the two logs of a two-log input leaves
the analysis unchanged (order-independence). -/
theorem claim_C7_witness :
    (sampleTransferResponse.tx_type = "TRANSFER" ∧ sampleTransferResponse.protocol = none) ∧
    analyze_transaction "ethereum-mainnet" "0xabc123"
        (.obj [("logs", .arr [lowerLog, upperLog])]) =
      analyze_transaction "ethereum-mainnet" "0xabc123"
        (.obj [("logs", .arr [upperLog, lowerLog])]) :=
  ⟨claim_C7.1 "ethereum-mainnet" "0xabc123" lowercaseLogDetails sampleTransferResponse rfl
      (by intro log hlog
          have hmem : log ∈ [Json.obj [("address", Json.str "0xuniswapv3pool...")]] := hlog
          rw [List.mem_singleton] at hmem
          subst hmem
          decide),
   claim_C7.2 "ethereum-mainnet" "0xabc123"
      (.obj [("logs", .arr [lowerLog, upperLog])])
      (.obj [("logs", .arr [upperLog, lowerLog])])
      (by show ([lowerLog, upperLog]).Perm [upperLog, lowerLog]
          exact List.Perm.swap upperLog lowerLog [])⟩

/-- C8: the response echoes the supplied `tx_hash` and `network`, and the
natural-language explanation contains both the transaction hash and the
network identifier as substrings. -/
theorem claim_C8 (network tx_hash : String) (tx_details : Json) (r : AnalyzeTxResponse)
    (h : analyze_transaction network tx_hash tx_details = .ok r) :
    r.tx_hash = tx_hash ∧ r.network = network ∧
    (∃ a b, r.natural_language_explanation = a ++ tx_hash ++ b) ∧
    (∃ a b, r.natural_language_explanation = a ++ network ++ b) := by
  rw [analyze_transaction_eq] at h
  injection h with h2
  rw [← h2]
  refine ⟨rfl, rfl,
    ⟨"This is a placeholder analysis for transaction ",
     " on " ++ network ++
       (".\nIn the next version, an AI model will interpret on-chain data, " ++
        "classify the transaction type, and assess risk using LLM reasoning."), ?_⟩,
    ⟨"This is a placeholder analysis for transaction " ++ tx_hash ++ " on ",
     ".\nIn the next version, an AI model will interpret on-chain data, " ++
       "classify the transaction type, and assess risk using LLM reasoning.", ?_⟩⟩ <;>
  simp only [String.append_assoc]

/-- Witness for C8 at the concrete input
`("ethereum-mainnet", "0xabc123", null)`. -/
theorem claim_C8_witness :
    sampleTransferResponse.tx_hash = "0xabc123" ∧
    sampleTransferResponse.network = "ethereum-mainnet" ∧
    (∃ a b, sampleTransferResponse.natural_language_explanation = a ++ "0xabc123" ++ b) ∧
    (∃ a b, sampleTransferResponse.natural_language_explanation =
      a ++ "ethereum-mainnet" ++ b) :=
  claim_C8 "ethereum-mainnet" "0xabc123" .null sampleTransferResponse rfl

/-- C9: `analyze_transaction` always returns `Ok`; the `LlmCallFailed`
error variant is never produced, so the analyze stage cannot fail. -/
theorem claim_C9 (network tx_hash : String) (tx_details : Json) :
    (analyze_transaction network tx_hash tx_details).isOk = true ∧
    ∀ e : AiError, analyze_transaction network tx_hash tx_details ≠ .error e := by
  rw [analyze_transaction_eq]
  exact ⟨rfl, fun e h => Except.noConfusion h⟩

/-- Witness for C9 at a concrete input and error value. -/
theorem claim_C9_witness :
    (analyze_transaction "ethereum-mainnet" "0xabc123" Json.null).isOk = true ∧
    analyze_transaction "ethereum-mainnet" "0xabc123" Json.null ≠
      .error (.llmCallFailed "model unavailable") :=
  ⟨(claim_C9 "ethereum-mainnet" "0xabc123" Json.null).1,
   (claim_C9 "ethereum-mainnet" "0xabc123" Json.null).2 (.llmCallFailed "model unavailable")⟩

/-- C10: `analyze_transaction` is total over malformed `tx_details`: a
missing `"logs"` key, a non-array `"logs"` value, or log entries whose
`"address"` field is missing or not a string never fail — each such shape
is treated as no protocol match, classifying as `TRANSFER` with
`protocol = none`. -/
theorem claim_C10 (network tx_hash : String) (tx_details : Json)
    (hmal : (tx_details.idx "logs").asArray = none ∨
      ∀ log ∈ ((tx_details.idx "logs").asArray).getD [],
        (log.idx "address").asStr = none) :
    ∃ r, analyze_transaction network tx_hash tx_details = .ok r ∧
      r.tx_type = "TRANSFER" ∧ r.protocol = none := by
  have hsig : hasDexSignature tx_details = false := by
    unfold hasDexSignature
    rcases hmal with hna | haddr
    · rw [hna]
      rfl
    · rw [List.any_eq_false]
      intro log hlog
      rw [haddr log hlog]
      decide
  rw [analyze_transaction_eq]
  exact ⟨_, rfl, by simp [hsig], by simp [hsig]⟩

/-- Witness for C10 at two malformed shapes: `"logs"` bound to a string,
and a log entry whose `"address"` is a number. -/
theorem claim_C10_witness :
    (∃ r, analyze_transaction "ethereum-mainnet" "0xabc123"
        (.obj [("logs", .str "not an array")]) = .ok r ∧
      r.tx_type = "TRANSFER" ∧ r.protocol = none) ∧
    (∃ r, analyze_transaction "ethereum-mainnet" "0xabc123"
        (.obj [("logs", .arr [.obj [("address", .num 5)]])]) = .ok r ∧
      r.tx_type = "TRANSFER" ∧ r.protocol = none) :=
  ⟨claim_C10 "ethereum-mainnet" "0xabc123" (.obj [("logs", .str "not an array")])
      (.inl rfl),
   claim_C10 "ethereum-mainnet" "0xabc123" (.obj [("logs", .arr [.obj [("address", .num 5)]])])
      (.inr (by intro log hlog
                have hmem : log ∈ [Json.obj [("address", Json.num 5)]] := hlog
                rw [List.mem_singleton] at hmem
                subst hmem
                rfl))⟩
